import Mathlib

/-!
Verification of fluree-migrate: a shallow embedding of the migration engine
(src/fluree.rs, src/cli.rs, src/functions.rs) and proofs about its claims.
-/

namespace FlureeMigrate

/-! ### JSON values (serde_json::Value, with numbers restricted to integers,
which is all the migration code ever reads or writes for ids and instants) -/

/-- A JSON value as used by the migration code. Arrays and objects nest. -/
inductive Json where
  | null
  | bool (b : Bool)
  | num (n : Int)
  | str (s : String)
  | arr (elems : List Json)
  | obj (members : List (String × Json))

/-- Field lookup on a JSON object member list (serde_json `value["k"]`,
`Null` when absent). -/
def lookupJson : List (String × Json) → String → Json
  | [], _ => Json.null
  | (k, v) :: rest, key => if k == key then v else lookupJson rest key

/-- `Value::as_i64`: `some n` exactly when the value is a number representable
as a 64-bit signed integer. -/
def Json.asI64 : Json → Option Int
  | Json.num n => if -(2 ^ 63) ≤ n ∧ n < 2 ^ 63 then some n else none
  | _ => none

mutual
/-- serde_json `Value::to_string` (compact serialization). -/
def jsonToString : Json → String
  | Json.null => "null"
  | Json.bool true => "true"
  | Json.bool false => "false"
  | Json.num n => toString n
  | Json.str s => "\"" ++ s ++ "\""
  | Json.arr es => "[" ++ jsonListToString es ++ "]"
  | Json.obj ms => "\x7b" ++ jsonObjToString ms ++ "\x7d"

def jsonListToString : List Json → String
  | [] => ""
  | [e] => jsonToString e
  | e :: es => jsonToString e ++ "," ++ jsonListToString es

def jsonObjToString : List (String × Json) → String
  | [] => ""
  | [(k, v)] => "\"" ++ k ++ "\":" ++ jsonToString v
  | (k, v) :: ms => "\"" ++ k ++ "\":" ++ jsonToString v ++ "," ++ jsonObjToString ms
end

/-! ### src/functions.rs: represent_fluree_value -/

mutual
/-- `represent_fluree_value` (src/functions.rs:24-46): objects become
`{"@id": <_id serialized>}` plus `"@type"` when a reference class is known;
arrays recurse element-wise; scalars pass through unchanged. -/
def represent_fluree_value : Json → Option String → Json
  | Json.obj members, ref_type =>
    let idStr := jsonToString (lookupJson members "_id")
    (match ref_type with
     | some t => Json.obj [("@id", Json.str idStr), ("@type", Json.str t)]
     | none => Json.obj [("@id", Json.str idStr)])
  | Json.arr elems, ref_type => Json.arr (representList elems ref_type)
  | Json.str s, _ => Json.str s
  | Json.num n, _ => Json.num n
  | Json.bool b, _ => Json.bool b
  | Json.null, _ => Json.null

def representList : List Json → Option String → List Json
  | [], _ => []
  | e :: es, ref_type => represent_fluree_value e ref_type :: representList es ref_type
end

example : represent_fluree_value (Json.num 42) (some "Person") = Json.num 42 := rfl
example :
    represent_fluree_value (Json.obj [("_id", Json.num 5)]) none
      = Json.obj [("@id", Json.str "5")] := rfl
example :
    represent_fluree_value (Json.arr [Json.obj [("_id", Json.num 5)]]) (some "P")
      = Json.arr [Json.obj [("@id", Json.str "5"), ("@type", Json.str "P")]] := rfl

/-! ### src/functions.rs: instant_to_iso_string (via chrono)
Epoch milliseconds to an RFC3339 millisecond-precision UTC string.
chrono's NaiveDateTime::from_timestamp_millis is fallible: it returns None
when the timestamp falls outside chrono's representable year range
-262144..=262143; the source then panics through .expect. Fallibility is
modelled with Option. -/

/-- Proleptic-Gregorian civil date (year, month, day) from days since
1970-01-01 (Howard Hinnant's civil_from_days, as used by chrono's
date arithmetic). -/
def civilFromDays (days : Int) : Int × Int × Int :=
  let z := days + 719468
  let era := z.fdiv 146097
  let doe := z - era * 146097
  let yoe := (doe - doe.ediv 1460 + doe.ediv 36524 - doe.ediv 146096).ediv 365
  let y := yoe + era * 400
  let doy := doe - (365 * yoe + yoe.ediv 4 - yoe.ediv 100)
  let mp := (5 * doy + 2).ediv 153
  let d := doy - (153 * mp + 2).ediv 5 + 1
  let m := mp + (if mp < 10 then 3 else -9)
  (if m ≤ 2 then y + 1 else y, m, d)

/-- Left-pad the decimal representation of a natural number with zeros. -/
def padZeros (width : Nat) (n : Nat) : String :=
  let s := toString n
  String.mk (List.replicate (width - s.length) '0') ++ s

/-- Year formatting in chrono's RFC3339 output: four zero-padded digits for
0..=9999, an explicit sign beyond that range. -/
def yearToString (y : Int) : String :=
  if y < 0 then "-" ++ padZeros 4 (-y).toNat
  else if y ≤ 9999 then padZeros 4 y.toNat
  else "+" ++ toString y.toNat

/-- Whether an epoch-millisecond value is representable by chrono
(`NaiveDateTime::from_timestamp_millis` returns Some): its civil year must
lie in chrono's year range -262144..=262143. -/
def instantValid (epoch : Int) : Bool :=
  let secs := epoch.ediv 1000
  let days := secs.ediv 86400
  let y := (civilFromDays days).1
  decide (-262144 ≤ y) && decide (y ≤ 262143)

/-- The RFC3339 millisecond-precision UTC rendering of an in-range
epoch-millisecond value ("YYYY-MM-DDTHH:MM:SS.mmmZ"). -/
def instantFormat (epoch : Int) : String :=
  let ms := epoch.emod 1000
  let secs := epoch.ediv 1000
  let days := secs.ediv 86400
  let sod := secs.emod 86400
  let ymd := civilFromDays days
  let hh := sod.ediv 3600
  let mi := (sod.emod 3600).ediv 60
  let ss := sod.emod 60
  yearToString ymd.1 ++ "-" ++ padZeros 2 ymd.2.1.toNat ++ "-"
    ++ padZeros 2 ymd.2.2.toNat ++ "T" ++ padZeros 2 hh.toNat ++ ":"
    ++ padZeros 2 mi.toNat ++ ":" ++ padZeros 2 ss.toNat ++ "."
    ++ padZeros 3 ms.toNat ++ "Z"

/-- `instant_to_iso_string` (src/functions.rs:17-22): epoch milliseconds to
"YYYY-MM-DDTHH:MM:SS.mmmZ". `none` models the panic on an out-of-range
timestamp (`from_timestamp_millis(..).expect(..)`). -/
def instant_to_iso_string (epoch : Int) : Option String :=
  if instantValid epoch then some (instantFormat epoch) else none

example : instant_to_iso_string 1693403567000 = some "2023-08-30T13:52:47.000Z" := by decide
example : instant_to_iso_string 0 = some "1970-01-01T00:00:00.000Z" := by decide
example : instant_to_iso_string (-1) = some "1969-12-31T23:59:59.999Z" := by decide

/-! ### src/functions.rs: name canonicalization helpers -/

/-- Split a character list at every occurrence of a separator (Rust
`str::split` on a one-character pattern: "a:b" gives ["a","b"], "" gives
[""], ":" gives ["",""]). -/
def splitChar (sep : Char) : List Char → List (List Char)
  | [] => [[]]
  | c :: rest =>
    let r := splitChar sep rest
    if c == sep then [] :: r
    else
      match r with
      | [] => [[c]]
      | g :: gs => (c :: g) :: gs

/-- `remove_namespace`: if the string contains a ":", return the segment after
the first ":", otherwise the string itself. -/
def remove_namespace (s : String) : String :=
  match splitChar ':' s.data with
  | _ :: second :: _ => String.mk second
  | _ => s

/-- `capitalize`: uppercase the first character. -/
def capitalize (s : String) : String :=
  match s.data with
  | [] => ""
  | c :: rest => String.mk (c.toUpper :: rest)

/-- `case_normalize`: snake_case to camel-merged form; the first segment keeps
its case, later segments are capitalized. -/
def case_normalize (s : String) : String :=
  match splitChar '_' s.data with
  | [] => ""
  | first :: parts => String.mk first ++ String.join (parts.map (fun p => capitalize (String.mk p)))

/-- `standardize_class_name`: strip namespace, capitalize, camel-merge. -/
def standardize_class_name (s : String) : String :=
  case_normalize (capitalize (remove_namespace s))

/-- `standardize_property_name`: camel-merge underscored segments. -/
def standardize_property_name (s : String) : String :=
  case_normalize s

example : standardize_class_name "person" = "Person" := by decide
example : standardize_property_name "age" = "age" := by decide

/-- `parse_for_class_and_property_name` (src/functions.rs:218-250): splits a
predicate name "collection/property"; `none` models the panic on a malformed
name. -/
def parse_for_class_and_property_name (name : String) : Option (String × String) :=
  match splitChar '/' name.data with
  | c :: p :: _ => some (String.mk c, String.mk p)
  | _ => none

/-! ### src/cli.rs (parser::jsonld): Property, ShaclProperty, ShaclShape.
The singleton maps `{"@id": v}` used throughout the source for paths,
datatypes, classes, domains and ranges are represented by the string `v`. -/

/-- `Property` (src/cli.rs:507-521). `data_types` is the accumulated set of
normalized datatypes, kept as a duplicate-free list in insertion order. -/
structure Property where
  id : String
  type_ : String
  label : String
  comment : String
  domain : List String
  data_types : List String
deriving DecidableEq

/-- `Property::normalize_type_value` (src/cli.rs:541-558): the fixed datatype
table; `tag` and anything unrecognized are dropped. -/
def Property.normalize_type_value (type_value : String) : Option String :=
  match type_value with
  | "float" => some "xsd:float"
  | "int" => some "xsd:integer"
  | "instant" => some "xsd:dateTime"
  | "boolean" => some "xsd:boolean"
  | "long" => some "xsd:long"
  | "string" => some "xsd:string"
  | _ => none

/-- HashSet-style insert into the duplicate-free datatype list. -/
def insertDataType (types : List String) (dt : String) : List String :=
  if dt ∈ types then types else types ++ [dt]

/-- `Property::new` (src/cli.rs:524-539). -/
def Property.new (property_name : String) (type_value : String) : Property :=
  let standard := standardize_property_name property_name
  { id := standard
    type_ := "rdf:Property"
    label := remove_namespace standard
    comment := ""
    domain := []
    data_types :=
      match Property.normalize_type_value type_value with
      | some dt => [dt]
      | none => [] }

/-- `Property::update_types_and_own` (src/cli.rs:560-570): union the
normalized type into the datatype set. -/
def Property.update_types_and_own (self : Property) (type_value : String) : Property :=
  match Property.normalize_type_value type_value with
  | some dt => { self with data_types := insertDataType self.data_types dt }
  | none => self

/-- `Property::set_class_domain` (src/cli.rs:572-576). -/
def Property.set_class_domain (self : Property) (class_name : String) : Property :=
  { self with domain := self.domain ++ [class_name] }

/-- `ShaclProperty` (src/cli.rs:708-732); `path`, `class` and `datatype` hold
the `@id` strings of the source's singleton maps. -/
structure ShaclProperty where
  id : String
  type_ : String
  label : String
  comment : String
  path : String
  class_ : Option String
  min_count : Option Nat
  max_count : Option Nat
  datatype : Option String
  node_kind : String
  pattern : String
deriving DecidableEq

/-- `ShaclProperty::new` (src/cli.rs:734-750). -/
def ShaclProperty.new (property_name : String) : ShaclProperty :=
  { id := ""
    type_ := ""
    label := ""
    comment := ""
    path := property_name
    class_ := none
    min_count := none
    max_count := none
    datatype := none
    node_kind := ""
    pattern := "" }

/-- `ShaclShape` (src/cli.rs:578-598). -/
structure ShaclShape where
  id : String
  type_ : String
  target_class : String
  target_property : String
  property : List ShaclProperty
  datatype : String
  node_kind : String
  closed : Option Bool
  ignored_properties : List String
deriving DecidableEq

/-- `ShaclShape::new` (src/cli.rs:600-629): closed shapes additionally ignore
`@type`. -/
def ShaclShape.new (class_name : String) (closed : Bool) : ShaclShape :=
  { id := ""
    type_ := "sh:NodeShape"
    target_class := class_name
    target_property := ""
    property := []
    datatype := ""
    node_kind := ""
    closed := if closed then some true else none
    ignored_properties := if closed then ["@type"] else [] }

/-- One raw predicate record as consumed by `set_property`: the optional JSON
fields the source reads (`_id`, `name`, `doc`, `type`, `multi`,
`restrictCollection`; the ignorable flags have no effect and are omitted). -/
structure PredItem where
  _id : Option Int
  name : Option String
  doc : Option String
  type_ : Option String
  multi : Option Bool
  restrictCollection : Option String
deriving DecidableEq

/-- The first line of the datatype-conflict report built in
`ShaclShape::set_property` (src/cli.rs:668-671). -/
def conflictMsg (p c dt : String) (others : List String) : String :=
  "Property, \"" ++ p ++ "\", in class, \"" ++ c ++ "\", is defined with datatype, \""
    ++ dt ++ "\", but also used with different datatypes ["
    ++ String.intercalate ", " others ++ "]."

/-- The second line of the datatype-conflict report. -/
def skipDatatypeMsg (p : String) : String :=
  "Proceeding with SHACL NodeShape but skipping \"sh:datatype\" for \"" ++ p ++ "\"."

/-- Result of `ShaclShape::set_property`: the updated shape, the updated
property, and the non-fatal error report if one was produced. -/
structure SetPropertyResult where
  shape : ShaclShape
  prop : Property
  err : Option (List String)
deriving DecidableEq

/-- `ShaclShape::set_property` (src/cli.rs:631-705). The keys of the item are
visited in serde_json's BTreeMap order (doc, restrictCollection, type); the
`multi` flag is handled before the loop. `sh:datatype` is set only when the
accumulated datatype set has exactly one member; with two or more members a
two-line conflict report is returned instead. `none` models the panic of
`normalize_type_value(..).unwrap()` when the conflicting predicate's own type
tag is unrecognized. -/
def ShaclShape.set_property (self : ShaclShape) (property_object : Property)
    (item : PredItem) : Option SetPropertyResult :=
  let sp := ShaclProperty.new property_object.id
  let sp := if item.multi = none ∨ item.multi = some false
    then { sp with max_count := some 1 } else sp
  let property_object :=
    match item.doc with
    | some d => { property_object with comment := d }
    | none => property_object
  let sp :=
    match item.restrictCollection with
    | some rc => { sp with class_ := some (standardize_class_name rc) }
    | none => sp
  match item.type_ with
  | none =>
    some { shape := { self with property := self.property ++ [sp] }
           prop := property_object, err := none }
  | some t =>
    if property_object.data_types.length > 1 then
      match Property.normalize_type_value t with
      | none => none
      | some data_type =>
        let others := property_object.data_types.filter (fun s => s ≠ data_type)
        let errs := [conflictMsg property_object.id self.target_class data_type others,
                     skipDatatypeMsg property_object.id]
        some { shape := { self with property := self.property ++ [sp] }
               prop := property_object, err := some errs }
    else
      let sp :=
        match property_object.data_types.head? with
        | some dt => { sp with datatype := some dt }
        | none => sp
      some { shape := { self with property := self.property ++ [sp] }
             prop := property_object, err := none }

/-! ### src/fluree.rs: the per-record transform of `migrate` (lines 683-715).
For one recognized key of a record: look up the class shape's property
constraints, convert dateTime values, resolve a reference class, and
represent the value. -/

/-- The inner per-key transform of `FlureeInstance::migrate`
(src/fluree.rs:688-714): `key` is the canonical property IRI; `none` models
the panics of `value.as_i64().unwrap()` and of the dateTime conversion. -/
def transformValueForKey (shaclProps : List ShaclProperty) (key : String)
    (value : Json) : Option Json :=
  let is_datetime :=
    (shaclProps.find? fun x => x.path == key && x.datatype == some "xsd:dateTime").isSome
  let ref_type :=
    match shaclProps.find? (fun x => x.path == key && x.class_.isSome) with
    | some x => x.class_
    | none => none
  if is_datetime then
    match value.asI64 with
    | none => none
    | some n =>
      match instant_to_iso_string n with
      | none => none
      | some s => some (represent_fluree_value (Json.str s) ref_type)
  else
    some (represent_fluree_value value ref_type)

/-! ### src/fluree.rs: FlureeInstance connection state (C4, C8) -/

/-- The connection-state fields of `FlureeInstance` (src/fluree.rs:50-61)
that the control flow reads and writes. -/
structure FlureeInst where
  url : String
  is_available : Bool
  is_authorized : Bool
  api_key : Option String
  is_created : Bool
deriving DecidableEq

/-- `FlureeInstance::new_target` (src/fluree.rs:80-95): the created flag
starts false exactly when the run is configured to create the ledger. -/
def FlureeInst.new_target (is_create_ledger : Bool) (api_key : Option String)
    (url : String) : FlureeInst :=
  { url := url
    is_available := true
    is_authorized := true
    api_key := api_key
    is_created := !is_create_ledger }

/-- `FlureeInstance::v3_transact` (src/fluree.rs:136-160): the wire path is
chosen from the created flag, and the flag is set to true before the request
is sent, so independently of the submission's outcome. Returns the path
together with the updated instance. -/
def FlureeInst.v3_transact (self : FlureeInst) : String × FlureeInst :=
  (if self.is_created then "transact" else "create",
   { self with is_created := true })

/-- The wire paths of `n` successive `v3_transact` calls. -/
def callPaths (inst : FlureeInst) : Nat → List String
  | 0 => []
  | n + 1 =>
    let r := inst.v3_transact
    r.1 :: callPaths r.2 n

/-- An HTTP response as `validate_result` inspects it: status code and
request URL. -/
structure HttpResponse where
  status : Nat
  url : String
deriving DecidableEq

/-- The authorization-failure message of `validate_result`, which depends on
whether an API key was already supplied. -/
def authFailureMsg (hasKey : Bool) : String :=
  if hasKey then
    "The API Key you provided is not authorized to access this database. Please try again."
  else
    "It appears you need to provide an API Key to access this database. Please try again."

/-- The other-status message of `validate_result`, naming the URL and the
status code. -/
def statusFailureMsg (url : String) (status : Nat) : String :=
  "The request to [" ++ url ++ "] returned a status code of " ++ toString status
    ++ ". Please try again."

/-- `FlureeInstance::validate_result` (src/fluree.rs:214-254): classify a
response (`none` = transport error) into the availability/authorization
flags, returning the updated instance and the error message, if any. Status
codes are matched exactly: OK = 200 and CREATED = 201 succeed; UNAUTHORIZED
= 401 and FORBIDDEN = 403 flag an authorization failure; anything else flags
unavailability with authorization inferred from credential presence; a
transport error flags unavailability alone and returns no error. -/
def FlureeInst.validate_result (self : FlureeInst) (result : Option HttpResponse) :
    FlureeInst × Option String :=
  match result with
  | some resp =>
    if resp.status = 200 ∨ resp.status = 201 then
      ({ self with is_available := true, is_authorized := true }, none)
    else if resp.status = 401 ∨ resp.status = 403 then
      ({ self with is_available := true, is_authorized := false },
       some (authFailureMsg self.api_key.isSome))
    else
      ({ self with is_available := false, is_authorized := !self.api_key.isSome },
       some (statusFailureMsg resp.url resp.status))
  | none =>
    ({ self with is_available := false, is_authorized := true }, none)

/-! ### src/cli.rs (temp_files): TempFile spill contract (C7) -/

/-- `TempFile::create_new_file` name format `{counter}__{class_name}`
(src/cli.rs:299). -/
def spillFileName (counter : Nat) (class_name : String) : String :=
  toString counter ++ "__" ++ class_name

/-- The `TempFile` state (src/cli.rs:265-271): the running file counter and
the chronological record of written files (counter, class). -/
structure TempFileState where
  file_counter : Nat
  written : List (Nat × String)
deriving DecidableEq

/-- `TempFile::new` (src/cli.rs:274-285): fresh directory, counter 0. -/
def TempFileState.new : TempFileState :=
  { file_counter := 0, written := [] }

/-- `TempFile::write` (src/cli.rs:287-296) via `create_new_file`
(src/cli.rs:298-310): every flush writes a new file named with the current
counter and increments the counter. -/
def TempFileState.write (self : TempFileState) (collection_name : String) :
    TempFileState :=
  { file_counter := self.file_counter + 1
    written := self.written ++ [(self.file_counter, collection_name)] }

/-- A whole run's flush sequence. -/
def runWrites (self : TempFileState) (classes : List String) : TempFileState :=
  classes.foldl (fun st c => st.write c) self

/-- Byte-wise lexicographic strictly-less on character lists, as Rust's
`Vec<PathBuf>::sort` compares the file names (`TempFile::get_files`,
src/cli.rs:312-331). -/
def lexLtChars : List Char → List Char → Bool
  | _, [] => false
  | [], _ :: _ => true
  | a :: as, b :: bs =>
    if a < b then true
    else if a == b then lexLtChars as bs
    else false

/-- Lexicographic order on spill file names. -/
def lexLt (a b : String) : Bool :=
  lexLtChars a.data b.data

example : lexLt (spillFileName 10 "c") (spillFileName 2 "c") = true := by decide
example : lexLt (spillFileName 2 "c") (spillFileName 3 "d") = true := by decide

/-! ### src/fluree.rs: the per-class pagination loop of `migrate`
(lines 503-585). A row is represented by its entity `_id` (the loop reads
nothing else from a row). The source is a function from the query offset to
the returned page. The class's shared seen-ID set is `none` before the first
page is recorded, mirroring the `entity_map` entry's absence. -/

/-- The loop-carried state of one class's pagination: current offset, the
class's seen-ID history (absent before the first page), the in-memory
buffer, and the chronological list of spill flushes (each flush is the
buffer it wrote). -/
structure LoopState where
  offset : Nat
  history : Option (List Int)
  buffer : List Int
  flushes : List (List Int)
deriving DecidableEq

/-- `class_hash_set.is_superset(&response_entity_ids)` with the entry-absent
case returning false (src/fluree.rs:544-552). -/
def allExist : Option (List Int) → List Int → Bool
  | none, _ => false
  | some h, ids => ids.all fun i => h.contains i

/-- `class_hash_set.extend(response_entity_ids)` resp.
`entity_map_guard.insert(..)` (src/fluree.rs:547,550). -/
def mergeHist : Option (List Int) → List Int → Option (List Int)
  | none, ids => some ids
  | some h, ids => some (h ++ ids)

/-- The initial state of one class's pagination. -/
def initLoopState : LoopState :=
  { offset := 0, history := none, buffer := [], flushes := [] }

/-- One class's pagination loop (src/fluree.rs:503-585), fuel-indexed:
`none` means the loop has not stopped within `fuel` iterations. Each
iteration fetches the page at the current offset; if the page is empty or
every ID in it is already in the class's history the loop flushes the buffer
and stops; otherwise it merges the IDs into history, appends the page to the
buffer (spilling and clearing when the buffer exceeds 12,500 records) and
advances the offset by the page size 5,000. -/
def migrateLoopAux (pages : Nat → List Int) : Nat → LoopState → Option LoopState
  | 0, _ => none
  | fuel + 1, st =>
    let page := pages st.offset
    let ae := allExist st.history page
    let hist := mergeHist st.history page
    if page.length == 0 || ae then
      some { st with history := hist, buffer := [],
                     flushes := st.flushes ++ [st.buffer] }
    else
      let buffer := if st.offset = 0 then page else st.buffer ++ page
      let st' :=
        if buffer.length > 12500 then
          { offset := st.offset + 5000, history := hist, buffer := [],
            flushes := st.flushes ++ [buffer] }
        else
          { offset := st.offset + 5000, history := hist, buffer := buffer,
            flushes := st.flushes }
      migrateLoopAux pages fuel st'

/-- The union of the entity IDs of the pages fetched before iteration `n`
(the class's seen-ID history at the start of iteration `n`). -/
def seenBefore (pages : Nat → List Int) : Nat → List Int
  | 0 => []
  | n + 1 => seenBefore pages n ++ pages (5000 * n)

/-- The loop's stop test at iteration `n`: the page at offset `5000 * n` is
empty, or (from the second iteration on) every ID in it is already in the
seen-ID history. -/
def stopCondB (pages : Nat → List Int) (n : Nat) : Bool :=
  (pages (5000 * n)).length == 0 ||
    (match n with
     | 0 => false
     | _ + 1 => (pages (5000 * n)).all fun i => (seenBefore pages n).contains i)

/-- The non-stopping body of one loop iteration: merge the page into
history, append it to the buffer (or spill when the buffer exceeds 12,500
records), advance the offset by 5,000. -/
def stepAdvance (pages : Nat → List Int) (st : LoopState) : LoopState :=
  let page := pages st.offset
  let buffer := if st.offset = 0 then page else st.buffer ++ page
  if buffer.length > 12500 then
    { offset := st.offset + 5000, history := mergeHist st.history page,
      buffer := [], flushes := st.flushes ++ [buffer] }
  else
    { offset := st.offset + 5000, history := mergeHist st.history page,
      buffer := buffer, flushes := st.flushes }

/-- The loop state at the start of iteration `n`, assuming no earlier
iteration stopped. -/
def stateAt (pages : Nat → List Int) : Nat → LoopState
  | 0 => initLoopState
  | n + 1 => stepAdvance pages (stateAt pages n)

theorem stateAt_offset (pages : Nat → List Int) :
    ∀ n, (stateAt pages n).offset = 5000 * n := by
  intro n
  induction n with
  | zero => rfl
  | succ k ih =>
    simp only [stateAt, stepAdvance]
    split <;> split <;> simp [ih, Nat.mul_succ]

theorem stateAt_history (pages : Nat → List Int) :
    ∀ n, (stateAt pages n).history =
      match n with
      | 0 => none
      | m + 1 => some (seenBefore pages (m + 1)) := by
  intro n
  induction n with
  | zero => rfl
  | succ k ih =>
    simp only [stateAt, stepAdvance]
    have hoff := stateAt_offset pages k
    cases k with
    | zero =>
      simp only [ih]
      split <;> split <;> simp [mergeHist, seenBefore, hoff]
    | succ m =>
      simp only [ih]
      split <;> split <;>
        simp [mergeHist, seenBefore, hoff, List.append_assoc]

theorem loopCond_eq (pages : Nat → List Int) (n : Nat) :
    ((pages (stateAt pages n).offset).length == 0
      || allExist (stateAt pages n).history (pages (stateAt pages n).offset))
      = stopCondB pages n := by
  have ho := stateAt_offset pages n
  have hh := stateAt_history pages n
  cases n with
  | zero => rw [ho]; simp [hh, allExist, stopCondB]
  | succ m => rw [ho]; simp [hh, allExist, stopCondB]

theorem migrateLoop_step (pages : Nat → List Int) (n fuel : Nat)
    (h : stopCondB pages n = false) :
    migrateLoopAux pages (fuel + 1) (stateAt pages n)
      = migrateLoopAux pages fuel (stateAt pages (n + 1)) := by
  have hc : ((pages (stateAt pages n).offset).length == 0
      || allExist (stateAt pages n).history (pages (stateAt pages n).offset)) = false := by
    rw [loopCond_eq]; exact h
  simp only [migrateLoopAux, hc, Bool.false_eq_true, if_false]
  simp only [stateAt, stepAdvance]

theorem migrateLoop_run (pages : Nat → List Int) :
    ∀ n fuel : Nat, (∀ m, m < n → stopCondB pages m = false) →
      migrateLoopAux pages (fuel + n) initLoopState
        = migrateLoopAux pages fuel (stateAt pages n) := by
  intro n
  induction n with
  | zero => intro fuel _; rfl
  | succ k ih =>
    intro fuel h
    have h1 : ∀ m, m < k → stopCondB pages m = false :=
      fun m hm => h m (Nat.lt_succ_of_lt hm)
    have hq : fuel + (k + 1) = (fuel + 1) + k := by omega
    rw [hq, ih (fuel + 1) h1, migrateLoop_step pages k fuel (h k (Nat.lt_succ_self k))]

theorem migrateLoop_stop (pages : Nat → List Int) (n : Nat)
    (h : stopCondB pages n = true) :
    migrateLoopAux pages 1 (stateAt pages n)
      = some { offset := 5000 * n, history := some (seenBefore pages (n + 1)),
               buffer := [],
               flushes := (stateAt pages n).flushes ++ [(stateAt pages n).buffer] } := by
  have hc : ((pages (stateAt pages n).offset).length == 0
      || allExist (stateAt pages n).history (pages (stateAt pages n).offset)) = true := by
    rw [loopCond_eq]; exact h
  have ho := stateAt_offset pages n
  have hh := stateAt_history pages n
  simp only [migrateLoopAux, hc, if_true]
  cases n with
  | zero => simp [ho, hh, mergeHist, seenBefore]
  | succ m => simp [ho, hh, mergeHist, seenBefore]

/-! ### Claim theorems -/

/-- C1: if some iteration's page is empty or has its entity-ID set contained
in the class's seen-ID history (in particular when the source forever
repeats its last page), the per-class pagination loop terminates, stopping
exactly at the first such iteration `N`: it returns within `N + 1`
iterations and within no fewer, having advanced the offset by the page size
5,000 per processed page and merged every processed page's IDs (including
the stopping page's) into the history; the buffer is flushed and cleared at
the stop. -/
theorem migrate_pagination_terminates_c1 (pages : Nat → List Int) (N : Nat)
    (hN : stopCondB pages N = true)
    (hmin : ∀ m, m < N → stopCondB pages m = false) :
    migrateLoopAux pages (N + 1) initLoopState
      = some { offset := 5000 * N, history := some (seenBefore pages (N + 1)),
               buffer := [],
               flushes := (stateAt pages N).flushes ++ [(stateAt pages N).buffer] }
    ∧ (∀ fuel, fuel ≤ N → migrateLoopAux pages fuel initLoopState = none)
    ∧ (∀ m, (stateAt pages (m + 1)).offset = (stateAt pages m).offset + 5000
        ∧ (stateAt pages (m + 1)).history = some (seenBefore pages (m + 1))) := by
  refine ⟨?_, ?_, ?_⟩
  · have hrun := migrateLoop_run pages N 1 hmin
    have : N + 1 = 1 + N := by omega
    rw [this, hrun, migrateLoop_stop pages N hN]
    rw [Nat.add_comm 1 N]
  · intro fuel hf
    have hall : ∀ m, m < fuel → stopCondB pages m = false :=
      fun m hm => hmin m (Nat.lt_of_lt_of_le hm hf)
    have hrun := migrateLoop_run pages fuel 0 hall
    simpa using hrun
  · intro m
    refine ⟨?_, ?_⟩
    · rw [stateAt_offset, stateAt_offset]; ring
    · rw [stateAt_history]

/-- A source that forever returns the same non-empty page. -/
def pagesRepeatC1 : Nat → List Int := fun _ => [1, 2]

/-- Witness for C1 at a source that forever repeats its page: the loop's
stop condition first holds at iteration 1, and the loop returns with fuel 2
exactly as the theorem states. -/
theorem migrate_pagination_terminates_c1_witness :
    stopCondB pagesRepeatC1 1 = true
    ∧ (∀ m, m < 1 → stopCondB pagesRepeatC1 m = false)
    ∧ migrateLoopAux pagesRepeatC1 2 initLoopState
        = some { offset := 5000 * 1, history := some (seenBefore pagesRepeatC1 2),
                 buffer := [],
                 flushes := (stateAt pagesRepeatC1 1).flushes
                   ++ [(stateAt pagesRepeatC1 1).buffer] } := by
  have h1 : stopCondB pagesRepeatC1 1 = true := by decide
  have h0 : ∀ m, m < 1 → stopCondB pagesRepeatC1 m = false := by decide
  exact ⟨h1, h0, (migrate_pagination_terminates_c1 pagesRepeatC1 1 h1 h0).1⟩

/-! ### The 13,000-record scenario (C5) -/

/-- `len` consecutive entity IDs starting at `start`. -/
def rangeIds (start len : Nat) : List Int :=
  (List.range len).map fun i => ((start + i : Nat) : Int)

/-- A source holding 13,000 records of one class, served in pages of at most
5,000: offsets 0 and 5,000 return full pages, offset 10,000 returns the
remaining 3,000 records, and every later offset returns an empty page. -/
def pages13000 : Nat → List Int := fun off =>
  if off = 0 then rangeIds 0 5000
  else if off = 5000 then rangeIds 5000 5000
  else if off = 10000 then rangeIds 10000 3000
  else []

theorem rangeIds_length (start len : Nat) : (rangeIds start len).length = len := by
  simp [rangeIds]

theorem mem_rangeIds (start len : Nat) (x : Int) :
    x ∈ rangeIds start len ↔ (start : Int) ≤ x ∧ x < (start : Int) + len := by
  simp only [rangeIds, List.mem_map, List.mem_range]
  constructor
  · rintro ⟨i, hi, rfl⟩
    omega
  · rintro ⟨h1, h2⟩
    refine ⟨(x - start).toNat, ?_, ?_⟩
    · omega
    · omega

theorem all_contains_eq_false (ids h : List Int) (x : Int)
    (hx : x ∈ ids) (hnx : x ∉ h) :
    (ids.all fun i => h.contains i) = false := by
  simp only [Bool.eq_false_iff, ne_eq, List.all_eq_true]
  intro hall
  have hc := hall x hx
  simp at hc
  exact hnx hc

theorem stop13000_0 : stopCondB pages13000 0 = false := by
  simp [stopCondB, pages13000, rangeIds_length]

theorem stop13000_1 : stopCondB pages13000 1 = false := by
  have hfresh : (5000 : Int) ∈ pages13000 (5000 * 1) := by
    simp [pages13000, mem_rangeIds]
  have hnot : (5000 : Int) ∉ seenBefore pages13000 1 := by
    simp [seenBefore, pages13000, mem_rangeIds]
  simp only [stopCondB, Bool.or_eq_false_iff]
  refine ⟨?_, all_contains_eq_false _ _ 5000 hfresh hnot⟩
  simp [pages13000, rangeIds_length]

theorem stop13000_2 : stopCondB pages13000 2 = false := by
  have hfresh : (10000 : Int) ∈ pages13000 (5000 * 2) := by
    simp [pages13000, mem_rangeIds]
  have hnot : (10000 : Int) ∉ seenBefore pages13000 2 := by
    simp [seenBefore, pages13000, mem_rangeIds]
  simp only [stopCondB, Bool.or_eq_false_iff]
  refine ⟨?_, all_contains_eq_false _ _ 10000 hfresh hnot⟩
  simp [pages13000, rangeIds_length]

theorem stop13000_3 : stopCondB pages13000 3 = true := by
  simp [stopCondB, pages13000]

theorem stop13000_lt3 : ∀ m, m < 3 → stopCondB pages13000 m = false := by
  intro m hm
  interval_cases m
  · exact stop13000_0
  · exact stop13000_1
  · exact stop13000_2

theorem stateAt13000_1 :
    stateAt pages13000 1
      = { offset := 5000, history := some (rangeIds 0 5000),
          buffer := rangeIds 0 5000, flushes := [] } := by
  have h : stateAt pages13000 1 = stepAdvance pages13000 initLoopState := rfl
  rw [h]
  simp [stepAdvance, initLoopState, pages13000, mergeHist, rangeIds_length]

theorem stateAt13000_2 :
    stateAt pages13000 2
      = { offset := 10000, history := some (rangeIds 0 5000 ++ rangeIds 5000 5000),
          buffer := rangeIds 0 5000 ++ rangeIds 5000 5000, flushes := [] } := by
  have h : stateAt pages13000 2 = stepAdvance pages13000 (stateAt pages13000 1) := rfl
  rw [h, stateAt13000_1]
  simp [stepAdvance, pages13000, mergeHist, rangeIds_length]

theorem stateAt13000_3 :
    stateAt pages13000 3
      = { offset := 15000,
          history := some (rangeIds 0 5000 ++ rangeIds 5000 5000 ++ rangeIds 10000 3000),
          buffer := [],
          flushes := [rangeIds 0 5000 ++ rangeIds 5000 5000 ++ rangeIds 10000 3000] } := by
  have h : stateAt pages13000 3 = stepAdvance pages13000 (stateAt pages13000 2) := rfl
  rw [h, stateAt13000_2]
  simp [stepAdvance, pages13000, mergeHist, rangeIds_length, List.length_append]

/-- The whole 13,000-record pagination evaluated: it terminates with fuel 4,
having written exactly two spill files, one of 13,000 records (the single
threshold-triggered flush, at 13,000 > 12,500) and the final empty flush. -/
theorem migrate13000_flushes :
    (migrateLoopAux pages13000 4 initLoopState).map (fun st => st.flushes.map List.length)
      = some [13000, 0] := by
  have hrun := migrateLoop_run pages13000 3 1 stop13000_lt3
  have hstop := migrateLoop_stop pages13000 3 stop13000_3
  have h4 : (4 : Nat) = 1 + 3 := by omega
  rw [h4, hrun, hstop]
  rw [stateAt13000_3]
  simp [rangeIds_length, List.length_append]

/-- C5 counterexample: 13,000 records extracted with page size 5,000 produce
exactly two flushes in total (one threshold-based spill of 13,000 records
plus the final empty flush), not the claimed 3 threshold flushes plus one
final flush (4 in total). -/
theorem pagination_spill_count_c5_counterexample :
    (migrateLoopAux pages13000 4 initLoopState).map (fun st => st.flushes.map List.length)
        = some [13000, 0]
    ∧ ([13000, 0] : List Nat).length ≠ 3 + 1 := by
  exact ⟨migrate13000_flushes, by decide⟩

/-- C5 amended: for a class with exactly 13,000 records extracted with page
size 5,000, pagination performs exactly 1 threshold-based spill flush
(triggered when the buffer reaches 13,000 > 12,500 records after the third
page, clearing the buffer) plus one final, empty flush when pagination
ends. -/
theorem pagination_spill_count_c5_amended :
    (migrateLoopAux pages13000 4 initLoopState).map (fun st => st.flushes.map List.length)
        = some [13000, 0]
    ∧ ([13000, 0] : List Nat).length = 1 + 1
    ∧ 13000 > 12500 := by
  exact ⟨migrate13000_flushes, by decide, by decide⟩

/-- C2: for a predicate with a recognized type tag applied in pass 2,
`set_property` emits `sh:datatype` on the new property constraint exactly
when the property's accumulated datatype set has at most one member (the
single member when there is one, nothing when the set is empty); with two
or more members the constraint carries no `sh:datatype` and exactly one
non-fatal two-line conflict report is returned, naming the property id, the
shape's class, the predicate's own normalized datatype, and the other
accumulated datatypes. -/
theorem set_property_datatype_conflict_c2 (self : ShaclShape) (prop : Property)
    (item : PredItem) (t dt : String)
    (ht : item.type_ = some t)
    (hdt : Property.normalize_type_value t = some dt) :
    ∃ r sp, self.set_property prop item = some r
      ∧ r.shape.property = self.property ++ [sp]
      ∧ sp.datatype = (if prop.data_types.length ≤ 1 then prop.data_types.head? else none)
      ∧ r.err = (if prop.data_types.length ≤ 1 then none
                 else some [conflictMsg prop.id self.target_class dt
                              (prop.data_types.filter (fun s => s ≠ dt)),
                            skipDatatypeMsg prop.id]) := by
  rcases item with ⟨iid, iname, idoc, itype, imulti, irc⟩
  simp only at ht
  subst ht
  by_cases hlen : prop.data_types.length > 1
  · have hlen' : ¬ prop.data_types.length ≤ 1 := by omega
    cases idoc <;> cases irc <;>
      simp [ShaclShape.set_property, ShaclProperty.new, hdt, hlen, hlen', apply_ite] <;>
      (split <;> exact ⟨_, rfl, rfl⟩)
  · have hlen' : prop.data_types.length ≤ 1 := by omega
    rcases hh : prop.data_types.head? with _ | d <;>
      cases idoc <;> cases irc <;>
      simp [ShaclShape.set_property, ShaclProperty.new, hdt, hlen, hlen', hh, apply_ite] <;>
      (split <;> exact ⟨_, rfl, rfl⟩)

/-- The accumulated `score` property after pass 1 has seen
`person/score : int` and `team/score : string`. -/
def scoreProperty : Property :=
  (Property.new "score" "int").update_types_and_own "string"

/-- The `person/score` predicate as pass 2 re-reads it. -/
def scoreConflictItem : PredItem :=
  { _id := some 1, name := some "person/score", doc := none,
    type_ := some "int", multi := none, restrictCollection := none }

/-- The shape of the `Person` class (open). -/
def personShape : ShaclShape := ShaclShape.new "Person" false

/-- Witness for C2 at the spec's two-class scenario (`person/score : int`,
`team/score : string`): applying the predicate `person/score` to the Person
shape, the accumulated datatype set has two members, so the constraint
carries no `sh:datatype` and one two-line conflict report is returned. -/
theorem set_property_datatype_conflict_c2_witness :
    scoreConflictItem.type_ = some "int"
    ∧ Property.normalize_type_value "int" = some "xsd:integer"
    ∧ ∃ r sp, personShape.set_property scoreProperty scoreConflictItem = some r
      ∧ r.shape.property = personShape.property ++ [sp]
      ∧ sp.datatype = (if scoreProperty.data_types.length ≤ 1
                       then scoreProperty.data_types.head? else none)
      ∧ r.err = (if scoreProperty.data_types.length ≤ 1 then none
                 else some [conflictMsg scoreProperty.id personShape.target_class
                              "xsd:integer"
                              (scoreProperty.data_types.filter (fun s => s ≠ "xsd:integer")),
                            skipDatatypeMsg scoreProperty.id]) :=
  ⟨rfl, rfl,
   set_property_datatype_conflict_c2 personShape scoreProperty scoreConflictItem
     "int" "xsd:integer" rfl rfl⟩

/-- A single-datatype property and a predicate with no "multi" key. -/
def nameProperty : Property := Property.new "name" "string"

/-- A predicate whose "multi" flag is absent. -/
def noMultiItem : PredItem :=
  { _id := some 1, name := some "person/name", doc := none,
    type_ := some "string", multi := none, restrictCollection := none }

/-- C6 counterexample: for a predicate with no "multi" flag, the generated
constraint carries `sh:maxCount = 1` (the source tests
`item["multi"].is_null() || !item["multi"].as_bool().unwrap()`), refuting
the claim that an absent "multi" leaves the constraint uncapped. -/
theorem set_property_maxcount_c6_counterexample :
    noMultiItem.multi = none
    ∧ (personShape.set_property nameProperty noMultiItem).map
        (fun r => r.shape.property.map (fun sp => sp.max_count)) = some [some 1]
    ∧ (some 1 : Option Nat) ≠ none := by
  refine ⟨rfl, rfl, by decide⟩

/-- The canonical `age` property of the scenario predicate
`{"_id":1,"name":"person/age","type":"int","multi":false}`. -/
def ageProperty : Property :=
  (Property.new "age" "int").set_class_domain "Person"

/-- The scenario predicate itself. -/
def ageItem : PredItem :=
  { _id := some 1, name := some "person/age", doc := none,
    type_ := some "int", multi := some false, restrictCollection := none }

/-- C6 amended: the constraint carries `sh:maxCount = 1` unless "multi" is
present and true ("multi" absent or false caps the constraint; "multi" true
leaves it uncapped); and the scenario predicate
`{"_id":1,"name":"person/age","type":"int","multi":false}` yields property
`age` with domain `[Person]` and the constraint
`{sh:path: age, sh:maxCount: 1, sh:datatype: xsd:integer}`. -/
theorem set_property_maxcount_c6_amended (self : ShaclShape) (prop : Property)
    (item : PredItem) (h : prop.data_types.length ≤ 1) :
    (∃ r sp, self.set_property prop item = some r
      ∧ r.shape.property = self.property ++ [sp]
      ∧ sp.max_count = (if item.multi = some true then none else some 1))
    ∧ parse_for_class_and_property_name "person/age" = some ("person", "age")
    ∧ standardize_class_name "person" = "Person"
    ∧ ageProperty.id = "age"
    ∧ ageProperty.domain = ["Person"]
    ∧ (ShaclShape.new "Person" false).set_property ageProperty ageItem
        = some { shape := { ShaclShape.new "Person" false with
                            property := [{ ShaclProperty.new "age" with
                                           max_count := some 1,
                                           datatype := some "xsd:integer" }] }
                 prop := ageProperty, err := none } := by
  have hlen : ¬ prop.data_types.length > 1 := by omega
  refine ⟨?_, by decide, by decide, by decide, by decide, by decide⟩
  rcases item with ⟨iid, iname, idoc, itype, imulti, irc⟩
  rcases hh : prop.data_types.head? with _ | d <;>
    cases itype <;> cases idoc <;> cases irc <;>
    rcases imulti with _ | (_ | _) <;>
    simp [ShaclShape.set_property, ShaclProperty.new, hlen, hh, apply_ite]

/-- Witness for C6's amended theorem at the scenario predicate: the `age`
property has a single accumulated datatype, and the constraint produced for
`multi = false` carries `sh:maxCount = 1`. -/
theorem set_property_maxcount_c6_amended_witness :
    ageProperty.data_types.length ≤ 1
    ∧ (∃ r sp, personShape.set_property ageProperty ageItem = some r
        ∧ r.shape.property = personShape.property ++ [sp]
        ∧ sp.max_count = (if ageItem.multi = some true then none else some 1)) :=
  ⟨by decide,
   (set_property_maxcount_c6_amended personShape ageProperty ageItem (by decide)).1⟩

/-! ### C7: spill-file naming and ordering -/

theorem lexLtChars_head_lt (a b : Char) (as bs : List Char) (h : a < b) :
    lexLtChars (a :: as) (b :: bs) = true := by
  simp [lexLtChars, h]

theorem runWrites_written (classes : List String) :
    ∀ (k : Nat) (w : List (Nat × String)),
      (runWrites { file_counter := k, written := w } classes).written
        = w ++ List.enumFrom k classes := by
  induction classes with
  | nil => intro k w; simp [runWrites, List.enumFrom]
  | cons c cs ih =>
    intro k w
    have hstep : runWrites { file_counter := k, written := w } (c :: cs)
        = runWrites { file_counter := k + 1, written := w ++ [(k, c)] } cs := rfl
    rw [hstep, ih]
    simp [List.enumFrom]

/-- Eleven spill flushes of one class. -/
def elevenWrites : TempFileState :=
  runWrites TempFileState.new (List.replicate 11 "c")

/-- C7 counterexample: in a run with eleven flushes, the file flushed third
(counter 2) and the file flushed eleventh (counter 10) both exist, yet the
lexicographically sorted listing places `10__c` strictly before `2__c`
('0' < '_' byte-wise), so the earlier flush does NOT appear earlier in the
sorted listing. -/
theorem spill_sort_order_c7_counterexample :
    (2, "c") ∈ elevenWrites.written
    ∧ (10, "c") ∈ elevenWrites.written
    ∧ 2 < 10
    ∧ lexLt (spillFileName 10 "c") (spillFileName 2 "c") = true := by
  refine ⟨by decide, by decide, by decide, by decide⟩

/-- C7 amended: every flush writes a new file named `{counter}__{class}`
with the counter increasing by one per flush across the whole run (the i-th
flush of a run started at counter `k` gets counter `k + i`); and the
lexicographically sorted listing preserves flush order whenever the
counters involved are single-digit (runs of at most 10 flushes) — with
multi-digit counters the order can invert, as `10__c` before `2__c`. -/
theorem spill_naming_order_c7_amended :
    (∀ (k : Nat) (w : List (Nat × String)) (classes : List String),
      (runWrites { file_counter := k, written := w } classes).written
        = w ++ List.enumFrom k classes)
    ∧ (∀ (c1 c2 : Nat) (cl1 cl2 : String), c1 < c2 → c2 ≤ 9 →
        lexLt (spillFileName c1 cl1) (spillFileName c2 cl2) = true) := by
  constructor
  · intro k w classes; exact runWrites_written classes k w
  · intro c1 c2 cl1 cl2 h h2
    have h1 : c1 ≤ 9 := by omega
    interval_cases c1 <;> interval_cases c2 <;>
      first
        | exact absurd h (by decide)
        | exact lexLtChars_head_lt _ _ _ _ (by decide)

/-- Witness for C7's amended theorem: a two-flush run names its files
`0__a`, `1__b`, and single-digit counters sort in flush order. -/
theorem spill_naming_order_c7_amended_witness :
    (runWrites TempFileState.new ["a", "b"]).written = List.enumFrom 0 ["a", "b"]
    ∧ 2 < 3 ∧ (3 : Nat) ≤ 9
    ∧ lexLt (spillFileName 2 "x") (spillFileName 3 "y") = true := by
  have h := spill_naming_order_c7_amended
  refine ⟨?_, by decide, by decide, h.2 2 3 "x" "y" (by decide) (by decide)⟩
  have := h.1 0 [] ["a", "b"]
  simpa using this

/-! ### C4: create-vs-transact wire semantics -/

theorem callPaths_created :
    ∀ (n : Nat) (inst : FlureeInst), inst.is_created = true →
      callPaths inst n = List.replicate n "transact" := by
  intro n
  induction n with
  | zero => intro inst _; rfl
  | succ k ih =>
    intro inst h
    simp [callPaths, FlureeInst.v3_transact, h, List.replicate_succ]
    exact ih _ rfl

/-- C4: for a target configured to create a new ledger, the first
`v3_transact` call posts to the "create" path and every later call posts to
"transact"; the created flag is set to true by every call — regardless of
the submission's outcome, since the flag is written before the request and
`validate_result`, which classifies the outcome, never touches it — and
once true it never becomes false. -/
theorem v3_transact_create_once_c4 :
    (∀ (key : Option String) (url : String) (n : Nat),
      callPaths (FlureeInst.new_target true key url) (n + 1)
        = "create" :: List.replicate n "transact")
    ∧ (∀ inst : FlureeInst, inst.v3_transact.2.is_created = true)
    ∧ (∀ (inst : FlureeInst) (res : Option HttpResponse),
        ((inst.validate_result res).1).is_created = inst.is_created) := by
  refine ⟨?_, ?_, ?_⟩
  · intro key url n
    simp [callPaths, FlureeInst.v3_transact, FlureeInst.new_target]
    exact callPaths_created n _ rfl
  · intro inst; rfl
  · intro inst res
    rcases res with _ | ⟨st, u⟩
    · rfl
    · simp only [FlureeInst.validate_result]
      split_ifs <;> rfl

/-! ### C8: validate_result classification -/

/-- A connection with no API key supplied. -/
def instNoKey : FlureeInst :=
  { url := "http://src", is_available := true, is_authorized := true,
    api_key := none, is_created := true }

/-- C8 counterexample: 204 is a 2xx status, yet `validate_result` classifies
it through the catch-all branch — the instance becomes unavailable and an
error message is returned — because the source matches only `StatusCode::OK`
(200) and `StatusCode::CREATED` (201), not the whole 2xx range. -/
theorem validate_result_c8_counterexample :
    200 ≤ 204 ∧ 204 < 300
    ∧ ((instNoKey.validate_result (some { status := 204, url := "http://src" })).1).is_available
        = false
    ∧ (instNoKey.validate_result (some { status := 204, url := "http://src" })).2
        = some (statusFailureMsg "http://src" 204) := by
  refine ⟨by decide, by decide, rfl, rfl⟩

/-- C8 amended: `validate_result` classifies exactly statuses 200 and 201
(not every 2xx) as (available, authorized) with no error; 401 and 403 yield
(true, false) with a message that differs according to whether a credential
was already supplied; any other status yields (false, x) with x inferred
from credential presence and a message naming the URL and the status; a
transport error yields (false, true) with no returned error. -/
theorem validate_result_c8_amended (inst : FlureeInst) (status : Nat) (url : String) :
    ((status = 200 ∨ status = 201) →
      inst.validate_result (some { status := status, url := url })
        = ({ inst with is_available := true, is_authorized := true }, none))
    ∧ ((status = 401 ∨ status = 403) →
      inst.validate_result (some { status := status, url := url })
          = ({ inst with is_available := true, is_authorized := false },
             some (authFailureMsg inst.api_key.isSome))
        ∧ authFailureMsg true ≠ authFailureMsg false)
    ∧ (¬(status = 200 ∨ status = 201) → ¬(status = 401 ∨ status = 403) →
      inst.validate_result (some { status := status, url := url })
        = ({ inst with is_available := false, is_authorized := !inst.api_key.isSome },
           some (statusFailureMsg url status)))
    ∧ inst.validate_result none
        = ({ inst with is_available := false, is_authorized := true }, none) := by
  refine ⟨?_, ?_, ?_, rfl⟩
  · intro h
    simp only [FlureeInst.validate_result, if_pos h]
  · intro h
    have h1 : ¬(status = 200 ∨ status = 201) := by
      rcases h with h | h <;> subst h <;> decide
    exact ⟨by simp only [FlureeInst.validate_result, if_neg h1, if_pos h], by decide⟩
  · intro h1 h2
    simp only [FlureeInst.validate_result, if_neg h1, if_neg h2]

/-- Witness for C8's amended theorem at statuses 200, 401 and 404 on a
keyless connection. -/
theorem validate_result_c8_amended_witness :
    instNoKey.validate_result (some { status := 200, url := "u" })
        = ({ instNoKey with is_available := true, is_authorized := true }, none)
    ∧ ((instNoKey.validate_result (some { status := 401, url := "u" })).1).is_authorized
        = false
    ∧ instNoKey.validate_result (some { status := 404, url := "u" })
        = ({ instNoKey with is_available := false, is_authorized := true },
           some (statusFailureMsg "u" 404)) := by
  refine ⟨(validate_result_c8_amended instNoKey 200 "u").1 (Or.inl rfl), ?_, ?_⟩
  · have h2 := ((validate_result_c8_amended instNoKey 401 "u").2.1 (Or.inl rfl)).1
    rw [h2]
  · have h3 := (validate_result_c8_amended instNoKey 404 "u").2.2.1 (by decide) (by decide)
    simpa using h3

/-! ### C3: the dateTime round trip -/

/-- C3: `instant_to_iso_string 1693403567000` is
"2023-08-30T13:52:47.000Z"; and whenever a property's shape constraint
carries datatype `xsd:dateTime`, the transformer replaces the raw value —
an epoch-millisecond integer read through `as_i64` — with the RFC3339
string produced by `instant_to_iso_string`. -/
theorem datetime_roundtrip_c3 :
    instant_to_iso_string 1693403567000 = some "2023-08-30T13:52:47.000Z"
    ∧ (∀ (props : List ShaclProperty) (key : String) (v : Json) (n : Int) (s : String),
        (props.find? fun x => x.path == key && x.datatype == some "xsd:dateTime").isSome
            = true →
        Json.asI64 v = some n →
        instant_to_iso_string n = some s →
        transformValueForKey props key v = some (Json.str s)) := by
  refine ⟨by decide, ?_⟩
  intro props key v n s hfind hv hs
  simp only [transformValueForKey, hfind, hv, hs, if_true]
  simp [represent_fluree_value]

/-- A shape constraint list whose single property `bd` is dateTime-typed. -/
def dtProps : List ShaclProperty :=
  [{ ShaclProperty.new "bd" with datatype := some "xsd:dateTime" }]

/-- Witness for C3: the raw value 1693403567000 under the
dateTime-constrained `bd` becomes the string "2023-08-30T13:52:47.000Z". -/
theorem datetime_roundtrip_c3_witness :
    (dtProps.find? fun x => x.path == "bd" && x.datatype == some "xsd:dateTime").isSome
        = true
    ∧ Json.asI64 (Json.num 1693403567000) = some 1693403567000
    ∧ transformValueForKey dtProps "bd" (Json.num 1693403567000)
        = some (Json.str "2023-08-30T13:52:47.000Z") := by
  refine ⟨by decide, by decide, ?_⟩
  exact datetime_roundtrip_c3.2 dtProps "bd" _ _ _ (by decide) (by decide)
    datetime_roundtrip_c3.1

/-! ### C10: partiality of the dateTime conversion -/

/-- C10: under a dateTime-constrained property the conversion is partial —
a value that is not a 64-bit integer, or an epoch-millisecond outside
chrono's representable range, hits a panic (modelled by `none`); under the
precondition that the value is an in-range epoch-millisecond integer the
panic branches are unreachable and the conversion totally produces the
formatted string. -/
theorem datetime_partial_c10 (props : List ShaclProperty) (key : String)
    (hdt : (props.find? fun x => x.path == key && x.datatype == some "xsd:dateTime").isSome
        = true) :
    (∀ v : Json, Json.asI64 v = none → transformValueForKey props key v = none)
    ∧ (∀ (v : Json) (n : Int), Json.asI64 v = some n → instantValid n = false →
        transformValueForKey props key v = none)
    ∧ (∀ (v : Json) (n : Int), Json.asI64 v = some n → instantValid n = true →
        transformValueForKey props key v = some (Json.str (instantFormat n))) := by
  refine ⟨?_, ?_, ?_⟩
  · intro v hv
    simp only [transformValueForKey, hdt, hv, if_true]
  · intro v n hv hval
    simp only [transformValueForKey, hdt, hv, if_true, instant_to_iso_string, hval,
      Bool.false_eq_true, if_false]
  · intro v n hv hval
    simp only [transformValueForKey, hdt, hv, if_true, instant_to_iso_string, hval]
    simp [represent_fluree_value]

/-- Witness for C10: under the dateTime-constrained `bd`, a string value
panics, the in-64-bit but out-of-chrono-range value 9·10^18 panics, and the
in-range value 0 converts totally. -/
theorem datetime_partial_c10_witness :
    (dtProps.find? fun x => x.path == "bd" && x.datatype == some "xsd:dateTime").isSome
        = true
    ∧ transformValueForKey dtProps "bd" (Json.str "not-a-number") = none
    ∧ transformValueForKey dtProps "bd" (Json.num 9000000000000000000) = none
    ∧ transformValueForKey dtProps "bd" (Json.num 0)
        = some (Json.str (instantFormat 0)) := by
  have h := datetime_partial_c10 dtProps "bd" (by decide)
  exact ⟨by decide, h.1 _ rfl,
    h.2.1 (Json.num 9000000000000000000) 9000000000000000000 (by decide) (by decide),
    h.2.2 (Json.num 0) 0 (by decide) (by decide)⟩

/-! ### C9: reference-value rewriting -/

/-- A shape constraint list whose single property `owner` carries an
`sh:class` reference to `Person` and no datatype. -/
def refProps : List ShaclProperty :=
  [{ ShaclProperty.new "owner" with class_ := some "Person" }]

/-- C9 counterexample: under the `sh:class`-annotated property `owner`, a
scalar raw value 42 passes through unchanged instead of being rewritten to
`{"@id": ...}` — the rewrite in `represent_fluree_value` is keyed on the
value being a JSON object, not on the annotation; conversely, under a
property with no annotation at all an object value is still rewritten to
`{"@id": ...}` rather than passed through unchanged. -/
theorem represent_ref_c9_counterexample :
    transformValueForKey refProps "owner" (Json.num 42) = some (Json.num 42)
    ∧ (Json.num 42 ≠ Json.obj [("@id", Json.str "42"), ("@type", Json.str "Person")])
    ∧ represent_fluree_value (Json.obj [("_id", Json.num 5)]) none
        = Json.obj [("@id", Json.str "5")]
    ∧ Json.obj [("@id", Json.str "5")] ≠ Json.obj [("_id", Json.num 5)] := by
  refine ⟨rfl, fun h => Json.noConfusion h, rfl, ?_⟩
  intro h
  simp at h

/-- C9 amended: under a property whose constraint carries `sh:class` (and
no dateTime constraint), object-valued entries are rewritten to
`{"@id": <serialized _id>, "@type": <referenced class>}`, array values
recurse element-wise, and scalar values pass through unchanged; the same
object rewrite (without `"@type"`) also happens under recognized properties
with no `sh:class` annotation. -/
theorem represent_ref_c9_amended (props : List ShaclProperty) (key : String)
    (x0 : ShaclProperty) (cls : String)
    (hnd : (props.find? fun x => x.path == key && x.datatype == some "xsd:dateTime") = none)
    (hc : (props.find? fun x => x.path == key && x.class_.isSome) = some x0)
    (hx : x0.class_ = some cls) :
    (∀ members, transformValueForKey props key (Json.obj members)
        = some (Json.obj [("@id", Json.str (jsonToString (lookupJson members "_id"))),
                          ("@type", Json.str cls)]))
    ∧ (∀ n : Int, transformValueForKey props key (Json.num n) = some (Json.num n))
    ∧ (∀ s : String, transformValueForKey props key (Json.str s) = some (Json.str s))
    ∧ (∀ b : Bool, transformValueForKey props key (Json.bool b) = some (Json.bool b))
    ∧ transformValueForKey props key Json.null = some Json.null
    ∧ (∀ elems, transformValueForKey props key (Json.arr elems)
        = some (Json.arr (representList elems (some cls))))
    ∧ (∀ members, represent_fluree_value (Json.obj members) none
        = Json.obj [("@id", Json.str (jsonToString (lookupJson members "_id")))]) := by
  refine ⟨?_, ?_, ?_, ?_, ?_, ?_, ?_⟩ <;>
    simp [transformValueForKey, hnd, hc, hx, represent_fluree_value]

/-- Witness for C9's amended theorem: under `owner` (an `sh:class Person`
reference), the object `{_id: 7}` becomes `{"@id": "7", "@type": "Person"}`,
the scalar 42 passes through, and an array recurses element-wise. -/
theorem represent_ref_c9_amended_witness :
    (refProps.find? fun x => x.path == "owner" && x.datatype == some "xsd:dateTime") = none
    ∧ (refProps.find? fun x => x.path == "owner" && x.class_.isSome)
        = some { ShaclProperty.new "owner" with class_ := some "Person" }
    ∧ transformValueForKey refProps "owner" (Json.obj [("_id", Json.num 7)])
        = some (Json.obj [("@id", Json.str "7"), ("@type", Json.str "Person")])
    ∧ transformValueForKey refProps "owner" (Json.num 42) = some (Json.num 42)
    ∧ transformValueForKey refProps "owner" (Json.arr [Json.obj [("_id", Json.num 8)]])
        = some (Json.arr (representList [Json.obj [("_id", Json.num 8)]] (some "Person"))) := by
  have h := represent_ref_c9_amended refProps "owner"
    { ShaclProperty.new "owner" with class_ := some "Person" } "Person" rfl rfl rfl
  exact ⟨rfl, rfl, h.1 [("_id", Json.num 7)], h.2.1 42,
    h.2.2.2.2.2.1 [Json.obj [("_id", Json.num 8)]]⟩

end FlureeMigrate
